import Mathlib

/-!
Verification of the Campus Entry Notification Survey dashboard.

The repository is a Next.js frontend over a FastAPI analytics backend; the
frontend pages under `src/frontend` (and the unnamed component files) are the
code under `src/`.  Statistical-engine functions that live in the backend are
modelled from the specification where noted.  Numbers that the TypeScript code
handles as IEEE doubles are embedded as rationals; all threshold comparisons in
the claims are exact at the inputs considered.
-/

namespace CampusSurvey

/-- A conclusion object pushed by `getStatConclusion` in
`src/frontend/src/app/demographics/page.tsx` (fields `type`, `text`, `detail`). -/
structure Conclusion where
  type : String
  text : String
  detail : String

/-- The cross-tabulation payload destructured by `getStatConclusion`
(`correlation_coefficient, chi_square, p_value, no_no, yes_yes, total_valid`
plus the `no_no_percent` / `yes_yes_percent` fields read later). -/
structure CrossTab where
  correlation_coefficient : ℚ
  chi_square : ℚ
  p_value : ℚ
  yes_yes : ℚ
  no_no : ℚ
  total_valid : ℚ
  yes_yes_percent : ℚ
  no_no_percent : ℚ

/-- The correlation-interpretation branch of `getStatConclusion`
(demographics/page.tsx lines 45-69). -/
def correlationConclusion (c : ℚ) : Conclusion :=
  if c > 7/10 then
    ⟨"strong", "There is a STRONG positive correlation between Q1 and Q2 responses.",
      "Students who oppose one policy very likely oppose the other as well."⟩
  else if c > 2/5 then
    ⟨"moderate", "There is a MODERATE positive correlation between Q1 and Q2 responses.",
      "Students tend to have similar opinions on both policies."⟩
  else if c > 1/5 then
    ⟨"weak", "There is a WEAK positive correlation between Q1 and Q2 responses.",
      "There is some relationship, but opinions on the two questions vary."⟩
  else
    ⟨"none", "There is NO significant correlation between Q1 and Q2 responses.",
      "The opinions of students on the two policies are largely independent."⟩

/-- The statistical-significance branch of `getStatConclusion`
(demographics/page.tsx lines 72-90). -/
def significanceConclusion (p : ℚ) : Conclusion :=
  if p < 1/1000 then
    ⟨"significant", "This relationship is HIGHLY statistically significant (p < 0.001).",
      "We can be very confident this pattern is real and not due to chance."⟩
  else if p < 1/20 then
    ⟨"significant", "This relationship is statistically significant (p < 0.05).",
      "The observed pattern is unlikely to be due to random chance."⟩
  else
    ⟨"not_significant", "This relationship is NOT statistically significant.",
      "The observed pattern could be due to random chance."⟩

/-- `getStatConclusion` from demographics/page.tsx: correlation conclusion,
then significance conclusion, then the optional practical-insight entry. -/
def getStatConclusion (ct : CrossTab) : List Conclusion :=
  [correlationConclusion ct.correlation_coefficient,
   significanceConclusion ct.p_value] ++
  (if ct.no_no_percent > 50 then
    [⟨"insight", toString ct.no_no_percent ++ "% of students oppose BOTH policies.",
      "The majority of respondents are against both the parent notification and monitoring systems."⟩]
   else [])

/-- `getSignificanceColor` from `src/frontend/src/app/compare/page.tsx` lines 72-76. -/
def getSignificanceColor (significant : Bool) (pValue : ℚ) : String :=
  if pValue < 1/100 then "text-emerald-400"
  else if significant then "text-blue-400"
  else "text-white/40"

/-- The significance-badge record the compare page renders
(`SignificanceBadge` in `src/frontend/src/lib/api.ts`). -/
structure SignificanceBadge where
  level : String
  label : String
  symbol : String
  color : String

/-- Modelled from the spec: the backend `StatisticsEngine.significance_badge`
is not included under `src/` (only the API types and the pages rendering the
badge are), so this follows the spec sentence: "maps p<0.001 → 'highly
significant' (symbol ***), p<0.01 → 'very significant' (**), p<0.05 →
'significant' (*), else 'not significant' (ns)"; colors follow the fixed
green/blue/yellow/gray presentation mapping rendered by compare/page.tsx. -/
def significance_badge (pValue : ℚ) (_significant : Bool) : SignificanceBadge :=
  if pValue < 1/1000 then ⟨"highly_significant", "highly significant", "***", "green"⟩
  else if pValue < 1/100 then ⟨"very_significant", "very significant", "**", "blue"⟩
  else if pValue < 1/20 then ⟨"significant", "significant", "*", "yellow"⟩
  else ⟨"not_significant", "not significant", "ns", "gray"⟩

/-- Modelled from the spec: the numeric primitives used by the backend
StatisticsEngine (square root, standard normal CDF, arcsine).  The backend is
not included under `src/` and the spec fixes only the formulas, not the
floating-point implementations of these primitives, so they are abstracted as
parameters; the claims proved below hold for every choice of them. -/
structure MathPrims where
  sqrt : ℚ → ℚ
  normalCdf : ℚ → ℚ
  arcsin : ℚ → ℚ
  chiSquareCdf : ℚ → ℚ

/-- The `PercentageWithCI` result record (also declared in
`src/frontend/src/lib/api.ts`). -/
structure PercentageWithCI where
  percentage : ℚ
  margin_of_error : ℚ
  ci_lower : ℚ
  ci_upper : ℚ
  sample_size : ℕ

/-- Modelled from the spec: backend `StatisticsEngine.percentage_with_ci` is
not under `src/`.  Follows spec section 4.4: percentage = 100·count/total (0 if
total=0); margin of error z·sqrt(p(1−p)/n)·100 with z = 1.96; ci bounds
clamped to [0,100]; zero-total input returns the sentinel (0 percentage, 100
margin of error) per the failure-semantics paragraph. -/
def percentage_with_ci (m : MathPrims) (count total : ℕ) : PercentageWithCI :=
  if total = 0 then
    { percentage := 0, margin_of_error := 100, ci_lower := 0, ci_upper := 100,
      sample_size := 0 }
  else
    { percentage := 100 * ((count : ℚ) / (total : ℚ))
      margin_of_error :=
        196/100 * m.sqrt ((count : ℚ) / (total : ℚ) * (1 - (count : ℚ) / (total : ℚ)) / (total : ℚ)) * 100
      ci_lower :=
        max 0 (100 * ((count : ℚ) / (total : ℚ)) -
          196/100 * m.sqrt ((count : ℚ) / (total : ℚ) * (1 - (count : ℚ) / (total : ℚ)) / (total : ℚ)) * 100)
      ci_upper :=
        min 100 (100 * ((count : ℚ) / (total : ℚ)) +
          196/100 * m.sqrt ((count : ℚ) / (total : ℚ) * (1 - (count : ℚ) / (total : ℚ)) / (total : ℚ)) * 100)
      sample_size := total }

/-- Modelled from the spec: the per-group sample proportion used by
`two_proportion_z_test`, with the zero-total sentinel (0). -/
def pHat (count total : ℕ) : ℚ :=
  if total = 0 then 0 else (count : ℚ) / (total : ℚ)

/-- Modelled from the spec: pooled proportion p = (count_a+count_b)/(total_a+total_b),
0 when both totals are zero. -/
def pooledP (ca ta cb tb : ℕ) : ℚ :=
  if ta + tb = 0 then 0
  else ((ca : ℚ) + (cb : ℚ)) / ((ta : ℚ) + (tb : ℚ))

/-- Modelled from the spec: pooled standard error
sqrt(p(1−p)(1/total_a+1/total_b)), 0 when either total is zero. -/
def pooledSE (m : MathPrims) (ca ta cb tb : ℕ) : ℚ :=
  if ta = 0 ∨ tb = 0 then 0
  else m.sqrt (pooledP ca ta cb tb * (1 - pooledP ca ta cb tb) *
    (1 / (ta : ℚ) + 1 / (tb : ℚ)))

/-- Modelled from the spec: z = (p_a − p_b)/SE, 0 if SE = 0. -/
def zStatistic (m : MathPrims) (ca ta cb tb : ℕ) : ℚ :=
  if pooledSE m ca ta cb tb = 0 then 0
  else (pHat ca ta - pHat cb tb) / pooledSE m ca ta cb tb

/-- Modelled from the spec: two-tailed p-value from the standard normal CDF of
the absolute z statistic; 1 (the non-significant sentinel) when SE = 0. -/
def pValueOf (m : MathPrims) (ca ta cb tb : ℕ) : ℚ :=
  if pooledSE m ca ta cb tb = 0 then 1
  else 2 * (1 - m.normalCdf |zStatistic m ca ta cb tb|)

/-- Modelled from the spec: Cohen h = 2·(asin(sqrt p_a) − asin(sqrt p_b)). -/
def cohensH (m : MathPrims) (ca ta cb tb : ℕ) : ℚ :=
  2 * (m.arcsin (m.sqrt (pHat ca ta)) - m.arcsin (m.sqrt (pHat cb tb)))

/-- Modelled from the spec: effect-size category of Cohen h by magnitude:
<0.2 negligible, <0.5 small, <0.8 medium, else large. -/
def effectSizeCategory (h : ℚ) : String :=
  if |h| < 1/5 then "negligible"
  else if |h| < 1/2 then "small"
  else if |h| < 4/5 then "medium"
  else "large"

/-- The `ComparisonStatTest` result record (also declared in
`src/frontend/src/lib/api.ts`). -/
structure ComparisonStatTest where
  z_statistic : ℚ
  p_value : ℚ
  significant : Bool
  highly_significant : Bool
  difference : ℚ
  effect_size : String
  cohens_h : ℚ

/-- Modelled from the spec: backend `StatisticsEngine.two_proportion_z_test`
is not under `src/`.  Follows spec section 4.4: significance is p_value < 0.05
(forced false when SE = 0), highly_significant is p_value < 0.01, difference is
the signed 100·(p_a − p_b). -/
def two_proportion_z_test (m : MathPrims) (ca ta cb tb : ℕ) : ComparisonStatTest :=
  { z_statistic := zStatistic m ca ta cb tb
    p_value := pValueOf m ca ta cb tb
    significant :=
      if pooledSE m ca ta cb tb = 0 then false
      else decide (pValueOf m ca ta cb tb < 1/20)
    highly_significant :=
      if pooledSE m ca ta cb tb = 0 then false
      else decide (pValueOf m ca ta cb tb < 1/100)
    difference := 100 * (pHat ca ta - pHat cb tb)
    effect_size := effectSizeCategory (cohensH m ca ta cb tb)
    cohens_h := cohensH m ca ta cb tb }

/-- The chi-square result record consumed by the demographics page. -/
structure ChiSquareResult where
  chi_square : ℚ
  p_value : ℚ
  correlation_coefficient : ℚ
  significant : Bool

/-- Modelled from the spec: one cell contribution to the 2×2 chi-square
statistic, with Yates continuity correction when requested and a zero
contribution for a zero expected count (zero marginal). -/
def chiCell (o e : ℚ) (yates : Bool) : ℚ :=
  if e = 0 then 0
  else if yates then (|o - e| - 1/2) ^ 2 / e
  else (o - e) ^ 2 / e

/-- Modelled from the spec: backend `StatisticsEngine.chi_square_2x2` is not
under `src/`.  Pearson chi-square on the 2×2 table with Yates correction when
any expected cell count is below 5; the correlation coefficient is the phi
coefficient, zero when any marginal is zero; zero-total input returns the
defined non-significant sentinel. -/
def chi_square_2x2 (m : MathPrims) (yy yn ny nn : ℕ) : ChiSquareResult :=
  if yy + yn + ny + nn = 0 then ⟨0, 1, 0, false⟩
  else
    let total : ℚ := ((yy + yn + ny + nn : ℕ) : ℚ)
    let row1 : ℚ := (yy : ℚ) + (yn : ℚ)
    let row2 : ℚ := (ny : ℚ) + (nn : ℚ)
    let col1 : ℚ := (yy : ℚ) + (ny : ℚ)
    let col2 : ℚ := (yn : ℚ) + (nn : ℚ)
    let e11 : ℚ := row1 * col1 / total
    let e12 : ℚ := row1 * col2 / total
    let e21 : ℚ := row2 * col1 / total
    let e22 : ℚ := row2 * col2 / total
    let yates : Bool := decide (e11 < 5) || decide (e12 < 5) ||
      decide (e21 < 5) || decide (e22 < 5)
    let chi2 : ℚ := chiCell (yy : ℚ) e11 yates + chiCell (yn : ℚ) e12 yates +
      chiCell (ny : ℚ) e21 yates + chiCell (nn : ℚ) e22 yates
    let phi : ℚ :=
      if row1 = 0 ∨ row2 = 0 ∨ col1 = 0 ∨ col2 = 0 then 0
      else ((yy : ℚ) * (nn : ℚ) - (yn : ℚ) * (ny : ℚ)) /
        m.sqrt (row1 * row2 * col1 * col2)
    ⟨chi2, 1 - m.chiSquareCdf chi2, phi, decide (1 - m.chiSquareCdf chi2 < 1/20)⟩

/-- The sample-adequacy record of the spec. -/
structure SampleAdequacy where
  adequacy : String
  worst_case_moe_percent : ℚ
  can_detect_difference : ℚ

/-- Modelled from the spec: backend `StatisticsEngine.sample_adequacy` is not
under `src/`.  Worst-case margin of error at p = 0.5 with z = 1.96, adequacy
classified by the fixed 3/5 percent thresholds, and the smallest detectable
difference at 80 percent power (z_alpha + z_beta = 1.96 + 0.84 = 2.8) at
p = 0.5; a zero sample size returns the maximal-uncertainty sentinel. -/
def sample_adequacy (m : MathPrims) (sample_size : ℕ) : SampleAdequacy :=
  if sample_size = 0 then ⟨"weak", 100, 100⟩
  else
    let moe : ℚ := 196/100 * m.sqrt ((1/4) / (sample_size : ℚ)) * 100
    ⟨if moe < 3 then "strong" else if moe < 5 then "adequate" else "weak",
      moe, 28/10 * m.sqrt ((1/2) / (sample_size : ℚ)) * 100⟩

/-- Modelled from the spec: the pattern detectors of `QualityScorer.score`
(too-short, keyboard-spam, all-caps, minimal word count).  The backend is not
under `src/` and the spec gives their thresholds only loosely, so they are
abstracted as Boolean predicates; the range claim holds for every choice. -/
structure QualityDetectors where
  too_short : String → Bool
  keyboard_spam : String → Bool
  all_caps : String → Bool
  minimal : String → Bool

/-- Empty / whitespace-only comment check (spec section 4.1). -/
def isEmptyComment (c : String) : Bool := c.trim == ""

/-- Modelled from the spec: total penalty applied by `QualityScorer.score`
(−30 too_short, −50 keyboard_spam, −15 all_caps, −20 minimal). -/
def qualityPenalty (d : QualityDetectors) (c : String) : ℤ :=
  (if d.too_short c then 30 else 0) + (if d.keyboard_spam c then 50 else 0) +
  (if d.all_caps c then 15 else 0) + (if d.minimal c then 20 else 0)

/-- Modelled from the spec: backend `QualityScorer.score` is not under `src/`.
Start at 100, subtract the penalties, force 0 on empty/whitespace-only
comments, clamp to [0,100]. -/
def qualityScore (d : QualityDetectors) (c : String) : ℤ :=
  if isEmptyComment c then 0
  else max 0 (min 100 (100 - qualityPenalty d c))

/-- The React state of the compare page (`src/frontend/src/app/compare/page.tsx`):
`groupType`, `groupA`, `groupB`, `shouldCompare` from the four useState hooks. -/
structure CompareState where
  groupType : String
  groupA : String
  groupB : String
  shouldCompare : Bool

/-- The useState initial values of the compare page. -/
def initCompareState : CompareState :=
  { groupType := "course", groupA := "", groupB := "", shouldCompare := false }

/-- The `enabled` condition of the comparison query (compare/page.tsx line 53):
`shouldCompare && !!groupA && !!groupB && groupA !== groupB`. -/
def queryEnabled (s : CompareState) : Bool :=
  s.shouldCompare && !(s.groupA == "") && !(s.groupB == "") && !(s.groupA == s.groupB)

/-- The `disabled` prop of the Compare button (compare/page.tsx line 176):
`!groupA || !groupB || groupA === groupB`. -/
def compareDisabled (s : CompareState) : Bool :=
  s.groupA == "" || s.groupB == "" || s.groupA == s.groupB

/-- `handleCompare` (compare/page.tsx lines 56-60). -/
def handleCompare (s : CompareState) : CompareState :=
  if !(s.groupA == "") && !(s.groupB == "") && !(s.groupA == s.groupB) then
    { s with shouldCompare := true }
  else s

/-- The group-type toggle buttons: set the type and reset `shouldCompare`. -/
def setGroupTypeEvent (t : String) (s : CompareState) : CompareState :=
  { s with groupType := t, shouldCompare := false }

/-- The Group A select onChange handler: set the value, reset `shouldCompare`. -/
def selectGroupA (v : String) (s : CompareState) : CompareState :=
  { s with groupA := v, shouldCompare := false }

/-- The Group B select onChange handler: set the value, reset `shouldCompare`. -/
def selectGroupB (v : String) (s : CompareState) : CompareState :=
  { s with groupB := v, shouldCompare := false }

/-- `swapGroups` (compare/page.tsx lines 62-66). -/
def swapGroupsEvent (s : CompareState) : CompareState :=
  { s with groupA := s.groupB, groupB := s.groupA }

/-- The useEffect of the compare page (lines 35-43): when the available
options arrive (or the group type changes), pre-select the first two options
if at least two exist. -/
def loadGroupsEffect (options : List String) (s : CompareState) : CompareState :=
  if 2 ≤ options.length then
    { s with groupA := options.getD 0 "", groupB := options.getD 1 "" }
  else s

/-- The states of the compare page reachable from the initial render through
its event handlers and effect. -/
inductive CompareReachable : CompareState → Prop where
  | init : CompareReachable initCompareState
  | load (opts : List String) {s : CompareState} :
      CompareReachable s → CompareReachable (loadGroupsEffect opts s)
  | setType (t : String) {s : CompareState} :
      CompareReachable s → CompareReachable (setGroupTypeEvent t s)
  | selectA (v : String) {s : CompareState} :
      CompareReachable s → CompareReachable (selectGroupA v s)
  | selectB (v : String) {s : CompareState} :
      CompareReachable s → CompareReachable (selectGroupB v s)
  | swap {s : CompareState} :
      CompareReachable s → CompareReachable (swapGroupsEvent s)
  | compare {s : CompareState} :
      CompareReachable s → CompareReachable (handleCompare s)

/-- The fixed page size of the explorer page (explorer/page.tsx line 56). -/
def pageSize : ℕ := 20

/-- `totalPages` (explorer/page.tsx line 142): `Math.ceil(responses.total / pageSize)`. -/
def totalPages (total : ℕ) : ℕ := Nat.ceil ((total : ℚ) / (pageSize : ℚ))

/-- The Previous button handler (explorer/page.tsx line 444):
`setPage(p => Math.max(1, p - 1))`. -/
def prevPageClick (page : ℕ) : ℕ := max 1 (page - 1)

/-- The Next button handler (explorer/page.tsx line 457):
`setPage(p => Math.min(totalPages, p + 1))`. -/
def nextPageClick (tp page : ℕ) : ℕ := min tp (page + 1)

/-- The filter/search/pagination state of the explorer page. -/
structure ExplorerState where
  searchQuery : String
  selectedCourses : List String
  selectedYears : List String
  page : ℕ

/-- `toggleCourse` (explorer/page.tsx lines 89-96): toggle membership of the
course in the selected list and reset the page to 1. -/
def toggleCourse (course : String) (s : ExplorerState) : ExplorerState :=
  { s with
    selectedCourses :=
      if s.selectedCourses.contains course then
        s.selectedCourses.filter (fun c => c != course)
      else s.selectedCourses ++ [course]
    page := 1 }

/-- `toggleYear` (explorer/page.tsx lines 98-103). -/
def toggleYear (year : String) (s : ExplorerState) : ExplorerState :=
  { s with
    selectedYears :=
      if s.selectedYears.contains year then
        s.selectedYears.filter (fun y => y != year)
      else s.selectedYears ++ [year]
    page := 1 }

/-- The search input onChange handler (explorer/page.tsx lines 173-176):
set the query and reset the page to 1. -/
def setSearchQueryEvent (q : String) (s : ExplorerState) : ExplorerState :=
  { s with searchQuery := q, page := 1 }

/-- One entry of the `qualityData` array of the quality page
(quality/page.tsx lines 39-44). -/
structure QualityBand where
  label : String
  value : ℕ
  color : String
  percent : ℚ

/-- Rounding to one decimal place, the embedding of `toFixed(1)` on the
non-negative percentages involved. -/
def roundTo1 (x : ℚ) : ℚ := ((round (10 * x) : ℤ) : ℚ) / 10

/-- One quality-band percentage as computed by quality/page.tsx:
`totalResponses ? (count / totalResponses * 100).toFixed(1) : 0`. -/
def bandPercent (count total : ℕ) : ℚ :=
  if total = 0 then 0 else roundTo1 ((count : ℚ) / (total : ℚ) * 100)

/-- The `qualityData` array (quality/page.tsx lines 27-44): the four quality
bands with `totalResponses` the sum of the four band counts. -/
def qualityDistribution (excellent good acceptable poor : ℕ) : List QualityBand :=
  [⟨"Excellent", excellent, "#4ade80", bandPercent excellent (excellent + good + acceptable + poor)⟩,
   ⟨"Good", good, "#5c9eff", bandPercent good (excellent + good + acceptable + poor)⟩,
   ⟨"Acceptable", acceptable, "#fbbf24", bandPercent acceptable (excellent + good + acceptable + poor)⟩,
   ⟨"Poor", poor, "#f87171", bandPercent poor (excellent + good + acceptable + poor)⟩]

/-- One response row as consumed by `exportFilteredData`
(explorer/page.tsx lines 115-140, fields of `ResponseDetail`). -/
structure ExportRow where
  id : ℕ
  name : String
  roll_no : String
  course : String
  year : String
  q1_parent_notification : String
  q2_monitoring : Option String
  quality_score : Option ℤ
  comments : String

/-- The embedding of `.replace(/"/g, '""')`: every double-quote character is
doubled, all other characters are kept. -/
def escapeQuotes (s : String) : String :=
  String.mk (s.data.flatMap fun ch => if ch = '"' then ['"', '"'] else [ch])

/-- Wrapping a CSV field in double quotes. -/
def quoteWrap (s : String) : String := "\"" ++ s ++ "\""

/-- The fixed CSV header columns (explorer/page.tsx line 119). -/
def csvHeaderFields : List String :=
  ["ID", "Name", "Roll No", "Course", "Year", "Q1", "Q2", "Quality Score", "Comment"]

/-- The fields of one CSV data row (explorer/page.tsx lines 120-130). -/
def csvRowFields (r : ExportRow) : List String :=
  [toString r.id, quoteWrap r.name, r.roll_no, quoteWrap r.course, r.year,
   r.q1_parent_notification, r.q2_monitoring.getD "",
   toString (r.quality_score.getD 0), quoteWrap (escapeQuotes r.comments)]

/-- The line array built by `exportFilteredData` before the final join:
the header row followed by one row per response, in page order. -/
def exportLines (rows : List ExportRow) : List String :=
  String.intercalate "," csvHeaderFields ::
    rows.map fun r => String.intercalate "," (csvRowFields r)

/-- `exportFilteredData` (explorer/page.tsx lines 115-140): the CSV string. -/
def exportFilteredData (rows : List ExportRow) : String :=
  String.intercalate "\n" (exportLines rows)

/-- One input word of the WordCloud component (`src/unnamed/part_003`). -/
structure WCWord where
  word : String
  count : ℤ

/-- The descending-count order imposed by the WordCloud sort comparator
`(a, b) => b.count - a.count`. -/
def wcDescOrder (a b : WCWord) : Prop := b.count ≤ a.count

instance : DecidableRel wcDescOrder := fun a b =>
  inferInstanceAs (Decidable (b.count ≤ a.count))

instance : IsTotal WCWord wcDescOrder := ⟨fun a b => le_total b.count a.count⟩

instance : IsTrans WCWord wcDescOrder := ⟨fun _ _ _ h1 h2 => le_trans h2 h1⟩

/-- One processed word of the WordCloud component (word, count, computed
font size, color, opacity). -/
structure WCProcessed where
  word : String
  count : ℤ
  fontSize : ℤ
  color : String
  opacity : ℚ

/-- The default color palette of the WordCloud component. -/
def wcDefaultColors : List String :=
  ["#3b82f6", "#8b5cf6", "#06b6d4", "#22c55e", "#f59e0b", "#ec4899"]

/-- `[...words].sort((a, b) => b.count - a.count).slice(0, maxWords)`:
a sorted copy of the input, truncated to the first maxWords entries. -/
def wcSorted (words : List WCWord) (maxWords : ℕ) : List WCWord :=
  (List.insertionSort wcDescOrder words).take maxWords

/-- `maxCount = sorted[0].count` (headD on the embedded list). -/
def wcMaxCount (sorted : List WCWord) : ℤ := (sorted.headD ⟨"", 0⟩).count

/-- `minCount = sorted[sorted.length - 1].count`. -/
def wcMinCount (sorted : List WCWord) : ℤ := (sorted.getLastD ⟨"", 0⟩).count

/-- `range = maxCount - minCount || 1`: the count range, replaced by 1 when it
is zero. -/
def wcRange (sorted : List WCWord) : ℤ :=
  if wcMaxCount sorted - wcMinCount sorted = 0 then 1
  else wcMaxCount sorted - wcMinCount sorted

/-- The per-word transform of `processedWords`: normalized count in [0,1],
interpolated rounded font size, color by index, opacity 0.6 + 0.4·normalized. -/
def wcTransform (minFontSize maxFontSize : ℤ) (colors : List String)
    (sorted : List WCWord) (i : ℕ) (w : WCWord) : WCProcessed :=
  { word := w.word
    count := w.count
    fontSize := round ((minFontSize : ℚ) +
      ((w.count : ℚ) - (wcMinCount sorted : ℚ)) / (wcRange sorted : ℚ) *
        ((maxFontSize : ℚ) - (minFontSize : ℚ)))
    color := colors.getD (i % colors.length) ""
    opacity := 6/10 +
      ((w.count : ℚ) - (wcMinCount sorted : ℚ)) / (wcRange sorted : ℚ) * (4/10) }

/-- `processedWords` of the WordCloud component (`src/unnamed/part_003`
lines 33-60). -/
def processedWords (words : List WCWord) (maxWords : ℕ)
    (minFontSize maxFontSize : ℤ) (colors : List String) : List WCProcessed :=
  if words.isEmpty then []
  else if (wcSorted words maxWords).isEmpty then []
  else (wcSorted words maxWords).mapIdx
    (wcTransform minFontSize maxFontSize colors (wcSorted words maxWords))

end CampusSurvey

namespace CampusSurvey

/-- C1 counterexample: at p-value 1/200 = 0.005 (so 0.001 ≤ p < 0.01) the
user-facing wording produced by `getStatConclusion` is the plain
"statistically significant (p < 0.05)" tier — identical to the wording at
p-value 1/40 = 0.025 — not a distinct "very significant" tier. -/
theorem significance_three_tier_counterexample :
    ((1 : ℚ)/1000 ≤ 1/200 ∧ (1 : ℚ)/200 < 1/100) ∧
    ((1 : ℚ)/100 ≤ 1/40 ∧ (1 : ℚ)/40 < 1/20) ∧
    significanceConclusion (1/200) = significanceConclusion (1/40) ∧
    (significanceConclusion (1/200)).text =
      "This relationship is statistically significant (p < 0.05)." := by
  refine ⟨⟨by norm_num, by norm_num⟩, ⟨by norm_num, by norm_num⟩, ?_, ?_⟩
  · norm_num [significanceConclusion]
  · norm_num [significanceConclusion]

/-- C1 (amended): the backend badge follows the four fixed tiers
(p<0.001 "highly significant", p<0.01 "very significant", p<0.05
"significant", else "not significant"), but the user-facing significance
wording produced by the demographics page collapses to three tiers —
p-values in [0.001, 0.01) get the same plain "statistically significant
(p < 0.05)" wording as the rest of [0.001, 0.05); the compare page
distinguishes p<0.01 only through its color accessor. -/
theorem significance_tiers_amended (p : ℚ) (s : Bool) :
    ((significance_badge p s).label = "highly significant" ↔ p < 1/1000) ∧
    ((significance_badge p s).label = "very significant" ↔ 1/1000 ≤ p ∧ p < 1/100) ∧
    ((significance_badge p s).label = "significant" ↔ 1/100 ≤ p ∧ p < 1/20) ∧
    ((significance_badge p s).label = "not significant" ↔ 1/20 ≤ p) ∧
    ((significanceConclusion p).text =
        "This relationship is HIGHLY statistically significant (p < 0.001)." ↔ p < 1/1000) ∧
    ((significanceConclusion p).text =
        "This relationship is statistically significant (p < 0.05)." ↔ 1/1000 ≤ p ∧ p < 1/20) ∧
    ((significanceConclusion p).text =
        "This relationship is NOT statistically significant." ↔ 1/20 ≤ p) ∧
    (getSignificanceColor s p = "text-emerald-400" ↔ p < 1/100) := by
  unfold significance_badge significanceConclusion getSignificanceColor
  split_ifs <;>
    refine ⟨?_, ?_, ?_, ?_, ?_, ?_, ?_, ?_⟩ <;>
    constructor <;>
    intro h <;>
    first
      | rfl
      | (exact absurd h (by decide))
      | (exact ⟨by linarith, by linarith⟩)
      | linarith

/-- C2: the first conclusion reported by `getStatConclusion` is "strong"
exactly when the correlation coefficient exceeds 0.7, "moderate" exactly on
(0.4, 0.7], "weak" exactly on (0.2, 0.4], and "none" otherwise. -/
theorem correlation_thresholds (ct : CrossTab) :
    ((getStatConclusion ct).head?.map Conclusion.type = some "strong" ↔
        7/10 < ct.correlation_coefficient) ∧
    ((getStatConclusion ct).head?.map Conclusion.type = some "moderate" ↔
        2/5 < ct.correlation_coefficient ∧ ct.correlation_coefficient ≤ 7/10) ∧
    ((getStatConclusion ct).head?.map Conclusion.type = some "weak" ↔
        1/5 < ct.correlation_coefficient ∧ ct.correlation_coefficient ≤ 2/5) ∧
    ((getStatConclusion ct).head?.map Conclusion.type = some "none" ↔
        ct.correlation_coefficient ≤ 1/5) := by
  unfold getStatConclusion correlationConclusion
  split_ifs <;>
    simp only [List.cons_append, List.nil_append, List.head?_cons, Option.map_some'] <;>
    refine ⟨?_, ?_, ?_, ?_⟩ <;>
    constructor <;>
    intro h <;>
    first
      | rfl
      | trivial
      | (exact h.elim)
      | (exact absurd h (by decide))
      | (exact ⟨by linarith, by linarith⟩)
      | linarith

theorem pooledP_swap (ca ta cb tb : ℕ) : pooledP cb tb ca ta = pooledP ca ta cb tb := by
  unfold pooledP
  rw [Nat.add_comm tb ta, add_comm (cb : ℚ) (ca : ℚ), add_comm (tb : ℚ) (ta : ℚ)]

theorem pooledSE_swap (m : MathPrims) (ca ta cb tb : ℕ) :
    pooledSE m cb tb ca ta = pooledSE m ca ta cb tb := by
  unfold pooledSE
  rw [pooledP_swap]
  simp only [or_comm, add_comm (1 / (tb : ℚ)) (1 / (ta : ℚ))]

theorem zStatistic_swap (m : MathPrims) (ca ta cb tb : ℕ) :
    zStatistic m cb tb ca ta = -zStatistic m ca ta cb tb := by
  unfold zStatistic
  rw [pooledSE_swap]
  split_ifs with h
  · ring
  · rw [← neg_div, neg_sub]

theorem pValueOf_swap (m : MathPrims) (ca ta cb tb : ℕ) :
    pValueOf m cb tb ca ta = pValueOf m ca ta cb tb := by
  unfold pValueOf
  rw [pooledSE_swap, zStatistic_swap, abs_neg]

/-- C5: `two_proportion_z_test` is antisymmetric in its two groups — swapping
(count_a, total_a) with (count_b, total_b) negates the returned difference and
preserves the absolute z statistic and the p-value, for every choice of the
numeric primitives. -/
theorem two_proportion_z_test_antisymmetric (m : MathPrims) (ca ta cb tb : ℕ) :
    (two_proportion_z_test m cb tb ca ta).difference =
      -(two_proportion_z_test m ca ta cb tb).difference ∧
    |(two_proportion_z_test m cb tb ca ta).z_statistic| =
      |(two_proportion_z_test m ca ta cb tb).z_statistic| ∧
    (two_proportion_z_test m cb tb ca ta).p_value =
      (two_proportion_z_test m ca ta cb tb).p_value := by
  refine ⟨?_, ?_, ?_⟩
  · show 100 * (pHat cb tb - pHat ca ta) = -(100 * (pHat ca ta - pHat cb tb))
    ring
  · show |zStatistic m cb tb ca ta| = |zStatistic m ca ta cb tb|
    rw [zStatistic_swap, abs_neg]
  · exact pValueOf_swap m ca ta cb tb

theorem pooledSE_zero_left (m : MathPrims) (ca cb tb : ℕ) :
    pooledSE m ca 0 cb tb = 0 := by
  simp [pooledSE]

theorem pooledSE_zero_right (m : MathPrims) (ca ta cb : ℕ) :
    pooledSE m ca ta cb 0 = 0 := by
  simp [pooledSE]

/-- C3: `percentage_with_ci` is total on zero-total input — (0,0) returns
percentage 0 and margin of error 100, every zero-total input returns the same
sentinel, and the z-test returns a defined non-significant sentinel (z = 0,
p-value 1, not significant) whenever either group total is zero. -/
theorem zero_total_sentinels (m : MathPrims) :
    percentage_with_ci m 0 0 =
      { percentage := 0, margin_of_error := 100, ci_lower := 0, ci_upper := 100,
        sample_size := 0 } ∧
    (∀ count : ℕ, percentage_with_ci m count 0 =
      { percentage := 0, margin_of_error := 100, ci_lower := 0, ci_upper := 100,
        sample_size := 0 }) ∧
    (∀ ca cb tb : ℕ,
      (two_proportion_z_test m ca 0 cb tb).z_statistic = 0 ∧
      (two_proportion_z_test m ca 0 cb tb).p_value = 1 ∧
      (two_proportion_z_test m ca 0 cb tb).significant = false) ∧
    (∀ ca ta cb : ℕ,
      (two_proportion_z_test m ca ta cb 0).z_statistic = 0 ∧
      (two_proportion_z_test m ca ta cb 0).p_value = 1 ∧
      (two_proportion_z_test m ca ta cb 0).significant = false) ∧
    chi_square_2x2 m 0 0 0 0 =
      { chi_square := 0, p_value := 1, correlation_coefficient := 0,
        significant := false } ∧
    sample_adequacy m 0 =
      { adequacy := "weak", worst_case_moe_percent := 100,
        can_detect_difference := 100 } := by
  refine ⟨rfl, fun _ => rfl, fun ca cb tb => ?_, fun ca ta cb => ?_, rfl, rfl⟩
  · exact ⟨by simp [two_proportion_z_test, zStatistic, pooledSE_zero_left],
      by simp [two_proportion_z_test, pValueOf, pooledSE_zero_left],
      by simp [two_proportion_z_test, pooledSE_zero_left]⟩
  · exact ⟨by simp [two_proportion_z_test, zStatistic, pooledSE_zero_right],
      by simp [two_proportion_z_test, pValueOf, pooledSE_zero_right],
      by simp [two_proportion_z_test, pooledSE_zero_right]⟩

/-- C4: for every comment and every choice of the pattern detectors, the
quality score lies between 0 and 100 inclusive. -/
theorem quality_score_range (d : QualityDetectors) (c : String) :
    0 ≤ qualityScore d c ∧ qualityScore d c ≤ 100 := by
  unfold qualityScore
  split_ifs
  · exact ⟨le_refl 0, by norm_num⟩
  · exact ⟨le_max_left 0 _, max_le (by norm_num) (min_le_left _ _)⟩

/-- C6: in every reachable state of the compare page, the comparison query is
enabled only when both group selections are non-empty and distinct, and the
Compare button is disabled whenever the selections are equal or one of them is
empty. -/
theorem compare_query_guard (s : CompareState) (hs : CompareReachable s) :
    (queryEnabled s = true →
      s.groupA ≠ "" ∧ s.groupB ≠ "" ∧ s.groupA ≠ s.groupB) ∧
    ((s.groupA = "" ∨ s.groupB = "" ∨ s.groupA = s.groupB) →
      compareDisabled s = true) := by
  clear hs
  constructor
  · intro h
    simp only [queryEnabled, Bool.and_eq_true, Bool.not_eq_eq_eq_not, Bool.not_true,
      beq_eq_false_iff_ne, ne_eq] at h
    exact ⟨h.1.1.2, h.1.2, h.2⟩
  · intro h
    simp only [compareDisabled, Bool.or_eq_true, beq_iff_eq]
    tauto

/-- C6 witness: the guard instantiated at the initial state of the page. -/
theorem compare_query_guard_witness :
    (queryEnabled initCompareState = true →
      initCompareState.groupA ≠ "" ∧ initCompareState.groupB ≠ "" ∧
        initCompareState.groupA ≠ initCompareState.groupB) ∧
    ((initCompareState.groupA = "" ∨ initCompareState.groupB = "" ∨
        initCompareState.groupA = initCompareState.groupB) →
      compareDisabled initCompareState = true) :=
  compare_query_guard initCompareState CompareReachable.init

/-- C7: `totalPages` is the ceiling of total/20 (characterized by the two
inequalities pinning the ceiling), the Previous/Next handlers keep a page in
[1, totalPages] inside [1, totalPages], and toggling a course filter, toggling
a year filter, or changing the search text resets the page to 1. -/
theorem explorer_pagination (total page : ℕ) (c y q : String) (s : ExplorerState)
    (h1 : 1 ≤ page) (h2 : page ≤ totalPages total) :
    (total ≤ pageSize * totalPages total ∧
      pageSize * totalPages total < total + pageSize) ∧
    (1 ≤ prevPageClick page ∧ prevPageClick page ≤ totalPages total) ∧
    (1 ≤ nextPageClick (totalPages total) page ∧
      nextPageClick (totalPages total) page ≤ totalPages total) ∧
    (toggleCourse c s).page = 1 ∧ (toggleYear y s).page = 1 ∧
    (setSearchQueryEvent q s).page = 1 := by
  have hps : (0 : ℚ) < (pageSize : ℚ) := by norm_num [pageSize]
  have hle : total ≤ pageSize * totalPages total := by
    have h := Nat.le_ceil ((total : ℚ) / (pageSize : ℚ))
    rw [div_le_iff₀ hps] at h
    have : (total : ℚ) ≤ ((totalPages total * pageSize : ℕ) : ℚ) := by
      push_cast
      exact h
    exact_mod_cast (Nat.mul_comm (totalPages total) pageSize) ▸ (Nat.cast_le.mp this)
  have hlt : pageSize * totalPages total < total + pageSize := by
    have h0 : (0 : ℚ) ≤ (total : ℚ) / (pageSize : ℚ) := by positivity
    have h := Nat.ceil_lt_add_one h0
    have h' : ((totalPages total : ℕ) : ℚ) * (pageSize : ℚ) <
        ((total : ℚ) / (pageSize : ℚ) + 1) * (pageSize : ℚ) :=
      mul_lt_mul_of_pos_right h hps
    rw [add_mul, div_mul_cancel₀ _ (ne_of_gt hps), one_mul] at h'
    have : ((totalPages total * pageSize : ℕ) : ℚ) < ((total + pageSize : ℕ) : ℚ) := by
      push_cast
      exact h'
    exact_mod_cast (Nat.mul_comm (totalPages total) pageSize) ▸ (Nat.cast_lt.mp this)
  refine ⟨⟨hle, hlt⟩, ⟨le_max_left 1 _, ?_⟩, ⟨?_, min_le_left _ _⟩, rfl, rfl, rfl⟩
  · exact max_le (le_trans h1 h2) (le_trans (Nat.sub_le page 1) h2)
  · exact le_min (le_trans h1 h2) (le_trans h1 (Nat.le_succ page))

/-- C7 witness: the pagination facts at total = 45 responses and page 1. -/
theorem explorer_pagination_witness :
    (45 ≤ pageSize * totalPages 45 ∧ pageSize * totalPages 45 < 45 + pageSize) ∧
    (1 ≤ prevPageClick 1 ∧ prevPageClick 1 ≤ totalPages 45) ∧
    (1 ≤ nextPageClick (totalPages 45) 1 ∧
      nextPageClick (totalPages 45) 1 ≤ totalPages 45) ∧
    (toggleCourse "BTech" ⟨"", [], [], 1⟩).page = 1 ∧
    (toggleYear "1st Year" ⟨"", [], [], 1⟩).page = 1 ∧
    (setSearchQueryEvent "privacy" ⟨"", [], [], 1⟩).page = 1 :=
  explorer_pagination 45 1 "BTech" "1st Year" "privacy" ⟨"", [], [], 1⟩ (le_refl 1)
    (Nat.one_le_iff_ne_zero.mpr (Nat.pos_iff_ne_zero.mp
      (Nat.ceil_pos.mpr (by norm_num [pageSize]))))

/-- C8: the four quality-band percentages are computed totally — all 0 when
the four band counts sum to 0, and otherwise each equals 100·count/total
rounded to one decimal, so the computation never divides by zero. -/
theorem quality_distribution_percentages (e g a p : ℕ) :
    (qualityDistribution e g a p).map QualityBand.percent =
      (if e + g + a + p = 0 then [0, 0, 0, 0]
       else
        [roundTo1 (100 * (e : ℚ) / ((e + g + a + p : ℕ) : ℚ)),
         roundTo1 (100 * (g : ℚ) / ((e + g + a + p : ℕ) : ℚ)),
         roundTo1 (100 * (a : ℚ) / ((e + g + a + p : ℕ) : ℚ)),
         roundTo1 (100 * (p : ℚ) / ((e + g + a + p : ℕ) : ℚ))]) := by
  by_cases h : e + g + a + p = 0
  · simp [qualityDistribution, bandPercent, h]
  · simp only [qualityDistribution, List.map_cons, List.map_nil, bandPercent, h,
      if_neg, if_false]
    have harg : ∀ n : ℕ,
        (n : ℚ) / ((e + g + a + p : ℕ) : ℚ) * 100 =
        100 * (n : ℚ) / ((e + g + a + p : ℕ) : ℚ) := by
      intro n
      ring
    rw [harg e, harg g, harg a, harg p]

/-- C10: the exported CSV consists of the fixed 9-column header line followed
by exactly one line per response in page order; double quotes inside the
comment field are escaped by doubling (quote count doubles, all other
characters are untouched), and the name, course, and comment fields are
wrapped in double quotes. -/
theorem export_csv_shape (rows : List ExportRow) (r : ExportRow) (s : String) :
    csvHeaderFields.length = 9 ∧
    (csvRowFields r).length = 9 ∧
    exportFilteredData rows = String.intercalate "\n" (exportLines rows) ∧
    (exportLines rows).length = rows.length + 1 ∧
    (exportLines rows).head? = some (String.intercalate "," csvHeaderFields) ∧
    (exportLines rows).tail =
      rows.map (fun row => String.intercalate "," (csvRowFields row)) ∧
    (escapeQuotes s).data.count '"' = 2 * s.data.count '"' ∧
    (escapeQuotes s).data.filter (fun ch => ch != '"') =
      s.data.filter (fun ch => ch != '"') ∧
    (csvRowFields r).get? 1 = some ("\"" ++ r.name ++ "\"") ∧
    (csvRowFields r).get? 3 = some ("\"" ++ r.course ++ "\"") ∧
    (csvRowFields r).get? 8 = some ("\"" ++ escapeQuotes r.comments ++ "\"") := by
  refine ⟨rfl, rfl, rfl, by simp [exportLines], rfl, rfl, ?_, ?_, rfl, rfl, rfl⟩
  · show (s.data.flatMap fun ch => if ch = '"' then ['"', '"'] else [ch]).count '"' =
      2 * s.data.count '"'
    induction s.data with
    | nil => rfl
    | cons ch tl ih =>
      by_cases hch : ch = '"'
      · simp [hch, List.count_cons, ih]
        ring
      · simp [hch, List.count_cons, ih]
  · show (s.data.flatMap fun ch => if ch = '"' then ['"', '"'] else [ch]).filter
        (fun ch => ch != '"') = s.data.filter (fun ch => ch != '"')
    induction s.data with
    | nil => rfl
    | cons ch tl ih =>
      by_cases hch : ch = '"'
      · simp [hch, ih]
      · simp [hch, ih]

theorem count_le_headD_of_sorted (d : WCWord) {l : List WCWord}
    (h : l.Sorted wcDescOrder) {x : WCWord} (hx : x ∈ l) :
    x.count ≤ (l.headD d).count := by
  cases l with
  | nil => exact absurd hx (List.not_mem_nil x)
  | cons a tl =>
    rcases List.mem_cons.mp hx with rfl | hmem
    · exact le_refl _
    · exact List.rel_of_sorted_cons h x hmem

theorem getLastD_mem_of_ne_nil {α : Type} :
    ∀ (l : List α) (d : α), l ≠ [] → l.getLastD d ∈ l := by
  intro l
  induction l with
  | nil => intro d h; exact absurd rfl h
  | cons a tl ih =>
    intro d _
    cases tl with
    | nil => exact List.mem_singleton.mpr rfl
    | cons b tl2 =>
      rw [List.getLastD_cons]
      exact List.mem_cons_of_mem a (ih a (by simp))

theorem getLastD_count_le_of_sorted :
    ∀ {l : List WCWord} (d : WCWord), l.Sorted wcDescOrder →
      ∀ {x : WCWord}, x ∈ l → (l.getLastD d).count ≤ x.count := by
  intro l
  induction l with
  | nil => intro d _ x hx; exact absurd hx (List.not_mem_nil x)
  | cons a tl ih =>
    intro d h x hx
    rcases List.mem_cons.mp hx with rfl | hmem
    · cases tl with
      | nil => exact le_refl _
      | cons b tl2 =>
        rw [List.getLastD_cons]
        have hmem2 : (b :: tl2).getLastD x ∈ b :: tl2 :=
          getLastD_mem_of_ne_nil _ x (by simp)
        exact List.rel_of_sorted_cons h _ hmem2
    · cases tl with
      | nil => exact absurd hmem (List.not_mem_nil x)
      | cons b tl2 =>
        rw [List.getLastD_cons]
        exact ih a h.of_cons hmem

theorem wcTransform_fontSize_bounds {minF maxF : ℤ} (hF : minF ≤ maxF)
    (colors : List String) {sorted : List WCWord}
    (hs : sorted.Sorted wcDescOrder) (i : ℕ) {w : WCWord} (hw : w ∈ sorted) :
    minF ≤ (wcTransform minF maxF colors sorted i w).fontSize ∧
    (wcTransform minF maxF colors sorted i w).fontSize ≤ maxF := by
  have hmax : w.count ≤ wcMaxCount sorted := count_le_headD_of_sorted ⟨"", 0⟩ hs hw
  have hmin : wcMinCount sorted ≤ w.count := getLastD_count_le_of_sorted ⟨"", 0⟩ hs hw
  have hrange_pos : (0 : ℤ) < wcRange sorted := by
    unfold wcRange
    split_ifs with h0
    · norm_num
    · omega
  have hnum_le : w.count - wcMinCount sorted ≤ wcRange sorted := by
    unfold wcRange
    split_ifs with h0
    · omega
    · omega
  have hrq : (0 : ℚ) < ((wcRange sorted : ℤ) : ℚ) := by exact_mod_cast hrange_pos
  have hn0 : 0 ≤ ((w.count : ℚ) - (wcMinCount sorted : ℚ)) / (wcRange sorted : ℚ) := by
    apply div_nonneg _ hrq.le
    have : ((wcMinCount sorted : ℤ) : ℚ) ≤ ((w.count : ℤ) : ℚ) := by exact_mod_cast hmin
    linarith
  have hn1 : ((w.count : ℚ) - (wcMinCount sorted : ℚ)) / (wcRange sorted : ℚ) ≤ 1 := by
    rw [div_le_one hrq]
    have : ((w.count - wcMinCount sorted : ℤ) : ℚ) ≤ ((wcRange sorted : ℤ) : ℚ) := by
      exact_mod_cast hnum_le
    push_cast at this
    linarith
  have key : ∀ x : ℚ, 0 ≤ x → x ≤ 1 →
      minF ≤ round ((minF : ℚ) + x * ((maxF : ℚ) - (minF : ℚ))) ∧
      round ((minF : ℚ) + x * ((maxF : ℚ) - (minF : ℚ))) ≤ maxF := by
    intro x hx0 hx1
    have hFq : (minF : ℚ) ≤ (maxF : ℚ) := by exact_mod_cast hF
    have hlow : (minF : ℚ) ≤ (minF : ℚ) + x * ((maxF : ℚ) - (minF : ℚ)) := by nlinarith
    have hhigh : (minF : ℚ) + x * ((maxF : ℚ) - (minF : ℚ)) ≤ (maxF : ℚ) := by nlinarith
    constructor
    · have h1 : round ((minF : ℤ) : ℚ) ≤
          round ((minF : ℚ) + x * ((maxF : ℚ) - (minF : ℚ))) := by
        rw [round_eq, round_eq]
        exact Int.floor_le_floor (by linarith)
      rwa [round_intCast] at h1
    · have h2 : round ((minF : ℚ) + x * ((maxF : ℚ) - (minF : ℚ))) ≤
          round ((maxF : ℤ) : ℚ) := by
        rw [round_eq, round_eq]
        exact Int.floor_le_floor (by linarith)
      rwa [round_intCast] at h2
  show minF ≤ round ((minF : ℚ) +
      ((w.count : ℚ) - (wcMinCount sorted : ℚ)) / (wcRange sorted : ℚ) *
        ((maxF : ℚ) - (minF : ℚ))) ∧
    round ((minF : ℚ) +
      ((w.count : ℚ) - (wcMinCount sorted : ℚ)) / (wcRange sorted : ℚ) *
        ((maxF : ℚ) - (minF : ℚ))) ≤ maxF
  exact key _ hn0 hn1

/-- C9: for a non-empty input word list, `processedWords` has at most maxWords
entries, in non-increasing count order, each taken from the (unmutated) input
list, and every computed font size lies between minFontSize and maxFontSize
inclusive — also when all counts are equal (the zero count range is replaced
by 1). -/
theorem wordcloud_processed_words (ws : List WCWord) (maxWords : ℕ)
    (minF maxF : ℤ) (colors : List String) (hws : ws ≠ []) (hF : minF ≤ maxF) :
    (processedWords ws maxWords minF maxF colors).length ≤ maxWords ∧
    List.Pairwise (fun a b => b.count ≤ a.count)
      (processedWords ws maxWords minF maxF colors) ∧
    (∀ e ∈ processedWords ws maxWords minF maxF colors,
      ∃ w ∈ ws, e.word = w.word ∧ e.count = w.count) ∧
    (∀ e ∈ processedWords ws maxWords minF maxF colors,
      minF ≤ e.fontSize ∧ e.fontSize ≤ maxF) := by
  clear hws
  by_cases hws0 : ws.isEmpty
  · simp [processedWords, hws0]
  · by_cases hempty : (wcSorted ws maxWords).isEmpty
    · simp [processedWords, hws0, hempty]
    · have hunfold : processedWords ws maxWords minF maxF colors =
          (wcSorted ws maxWords).mapIdx
            (wcTransform minF maxF colors (wcSorted ws maxWords)) := by
        rw [processedWords, if_neg, if_neg] <;> simp_all
      have hsorted : (wcSorted ws maxWords).Sorted wcDescOrder :=
        List.Pairwise.sublist (List.take_sublist _ _)
          (List.sorted_insertionSort wcDescOrder ws)
      rw [hunfold]
      refine ⟨?_, ?_, ?_, ?_⟩
      · rw [List.length_mapIdx]
        exact List.length_take_le _ _
      · rw [List.pairwise_iff_getElem]
        intro i j hi hj hij
        rw [List.length_mapIdx] at hi hj
        have hgi := List.get_mapIdx (wcSorted ws maxWords)
          (wcTransform minF maxF colors (wcSorted ws maxWords)) i hi
        have hgj := List.get_mapIdx (wcSorted ws maxWords)
          (wcTransform minF maxF colors (wcSorted ws maxWords)) j hj
        simp only [List.get_eq_getElem] at hgi hgj
        rw [hgi, hgj]
        have hpair := List.pairwise_iff_getElem.mp hsorted i j hi hj hij
        exact hpair
      · intro e he
        obtain ⟨⟨i, hi⟩, hget⟩ := List.mem_iff_get.mp he
        have hi' : i < (wcSorted ws maxWords).length := by
          simpa [List.length_mapIdx] using hi
        have heq := List.get_mapIdx (wcSorted ws maxWords)
          (wcTransform minF maxF colors (wcSorted ws maxWords)) i hi'
        refine ⟨(wcSorted ws maxWords).get ⟨i, hi'⟩, ?_, ?_, ?_⟩
        · have hmem := List.get_mem (wcSorted ws maxWords) i hi'
          have hmem2 : (wcSorted ws maxWords).get ⟨i, hi'⟩ ∈
              List.insertionSort wcDescOrder ws :=
            (List.take_sublist _ _).subset hmem
          exact (List.perm_insertionSort wcDescOrder ws).subset hmem2
        · rw [← hget, heq]
          rfl
        · rw [← hget, heq]
          rfl
      · intro e he
        obtain ⟨⟨i, hi⟩, hget⟩ := List.mem_iff_get.mp he
        have hi' : i < (wcSorted ws maxWords).length := by
          simpa [List.length_mapIdx] using hi
        have heq := List.get_mapIdx (wcSorted ws maxWords)
          (wcTransform minF maxF colors (wcSorted ws maxWords)) i hi'
        have hw : (wcSorted ws maxWords).get ⟨i, hi'⟩ ∈ wcSorted ws maxWords :=
          List.get_mem _ _ _
        rw [← hget, heq]
        exact wcTransform_fontSize_bounds hF colors hsorted i hw

/-- C9 witness: the processed-word facts at a concrete two-word list with the
default 50/12/36 parameters and the default palette. -/
theorem wordcloud_processed_words_witness :
    (processedWords [⟨"privacy", 3⟩, ⟨"trust", 1⟩] 50 12 36 wcDefaultColors).length ≤ 50 ∧
    List.Pairwise (fun a b => b.count ≤ a.count)
      (processedWords [⟨"privacy", 3⟩, ⟨"trust", 1⟩] 50 12 36 wcDefaultColors) ∧
    (∀ e ∈ processedWords [⟨"privacy", 3⟩, ⟨"trust", 1⟩] 50 12 36 wcDefaultColors,
      ∃ w ∈ [WCWord.mk "privacy" 3, WCWord.mk "trust" 1],
        e.word = w.word ∧ e.count = w.count) ∧
    (∀ e ∈ processedWords [⟨"privacy", 3⟩, ⟨"trust", 1⟩] 50 12 36 wcDefaultColors,
      12 ≤ e.fontSize ∧ e.fontSize ≤ 36) :=
  wordcloud_processed_words [⟨"privacy", 3⟩, ⟨"trust", 1⟩] 50 12 36 wcDefaultColors
    (by simp) (by norm_num)

end CampusSurvey
